import Mathlib

/-!
# Verification of the RAMSES-II protocol core (ramses_rf)

A shallow embedding, in Lean 4, of the send/receive protocol engine of the
`ramses_rf` repository, together with proofs of the frozen claims about it.

The embedding covers:

* the protocol finite state machine of `src/ramses_tx/protocol_fsm.py`
  (`ProtocolContext.set_state`, the per-state `pkt_rcvd` / `cmd_sent`
  handlers, the expiry-timer callback and `send_cmd`);
* the periodic discovery loop of `ramses_rf/entity_base.py`
  (`Discovery._poll_disc_tasks` and `Discovery._send_disc_task`);
* the `MessageIndex` store (its implementation module is not part of the
  sources at hand, only its tests; it is modelled from the specification,
  as flagged on each of those definitions).

Asynchrony is embedded by making every handler a pure function from a
context to a context plus a list of emitted side effects (future
completions, transport writes, timer starts, log lines).  Machine floats
(durations, timestamps) are modelled as rationals.
-/

namespace Ramses

/-- `Code._PUZZ` (the puzzle-packet code). Modelled from the spec: the
constant lives in `ramses_tx/const.py`, which is not among the sources;
its value does not matter to any claim. -/
def PUZZ_CODE : String := "7FFF"

/-- `HGI_DEVICE_ID`, the sentinel gateway device id.  Modelled from the
spec: the constant lives in `ramses_tx/address.py`, which is not among
the sources; the spec fixes it to `"18:000730"`. -/
def HGI_DEVICE_ID : String := "18:000730"

/-- `MAX_RETRY_LIMIT`. Modelled from the spec: the constant lives in
`ramses_tx/const.py`, which is not among the sources; the spec fixes it
to `3`. -/
def MAX_RETRY_LIMIT : Nat := 3

/-- `ProtocolContext.SEND_TIMEOUT_LIMIT` (= `MAX_SEND_TIMEOUT`). Modelled
from the spec: the constant lives in `ramses_tx/const.py`, which is not
among the sources; the spec fixes it to `15.0` seconds. -/
def SEND_TIMEOUT_LIMIT : ℚ := 15

/-! ## String helpers

Python `str.replace` / `in` / slicing, re-implemented over `List Char`
so that every use is executable and kernel-reducible. -/

/-- `pat in s` for strings, as in Python (`List Char` version). -/
def hasSubstrL (pat : List Char) : List Char → Bool
  | [] => pat.isEmpty
  | c :: cs => pat.isPrefixOf (c :: cs) || hasSubstrL pat cs

/-- `pat in s` for strings, as in Python. -/
def hasSubstrS (s pat : String) : Bool :=
  hasSubstrL pat.data s.data

/-- One fuelled pass of Python `str.replace` over `List Char`: replace
every non-overlapping occurrence of `pat` by `repl`, left to right. -/
def replaceL (pat repl : List Char) : Nat → List Char → List Char
  | _, [] => []
  | 0, s => s
  | fuel + 1, c :: cs =>
    if pat.isPrefixOf (c :: cs) && !pat.isEmpty then
      repl ++ replaceL pat repl fuel ((c :: cs).drop pat.length)
    else
      c :: replaceL pat repl fuel cs

/-- Python `s.replace(pat, repl)`. -/
def strReplace (s pat repl : String) : String :=
  String.mk (replaceL pat.data repl.data s.data.length s.data)

/-- Python `s[n:]`. -/
def strDrop (s : String) (n : Nat) : String :=
  String.mk (s.data.drop n)

/-! ## Data model (from `ramses_tx/protocol_fsm.py` and its interfaces)

`Command` and `Packet` are external collaborators (the frame codec is out
of scope); the protocol code reads only the fields below.  `frame` stands
for the raw frame text that Python `__eq__` compares (`pkt == cmd`). -/

/-- An outbound `Command`, with the fields the FSM reads.  `txHeader` is
`cmd.tx_header` (backed by `cmd._hdr_`, which `IsInIdle.cmd_sent`
rewrites in place), `rxHeader` is `cmd.rx_header` (empty when no reply is
expected), `srcId`/`dstId` are `cmd.src.id`/`cmd.dst.id`. -/
structure Command where
  frame : String
  txHeader : String
  rxHeader : String
  srcId : String
  dstId : String
deriving DecidableEq, Repr

/-- An inbound `Packet`, with the fields the FSM reads (`pkt._hdr`,
`pkt.code`, `pkt.src.id`, `pkt.dst.id`). -/
structure Packet where
  frame : String
  hdr : String
  code : String
  srcId : String
  dstId : String
deriving DecidableEq, Repr

/-- `QosParams` (`ramses_tx/typing.py` interface): per-send contract. -/
structure QosParams where
  timeout : ℚ
  maxRetries : Nat
  waitForReply : Bool
deriving DecidableEq, Repr

/-- The four protocol states (`Inactive`, `IsInIdle`, `WantEcho`,
`WantRply` subclasses of `ProtocolStateBase`). -/
inductive StateTag
  | inactive
  | isInIdle
  | wantEcho
  | wantRply
deriving DecidableEq, Repr

/-- A state object: the tag plus the `_sent_cmd` / `_echo_pkt` /
`_rply_pkt` slots every `ProtocolStateBase` instance carries. -/
structure StateObj where
  tag : StateTag
  sentCmd : Option Command
  echoPkt : Option Packet
  rplyPkt : Option Packet
deriving DecidableEq, Repr

/-- `state_class(self)`: construct a fresh state object from the previous
one.  `WantEcho.__init__` copies `_sent_cmd` from the previous state;
`WantRply.__init__` copies `_sent_cmd` and `_echo_pkt`. -/
def mkState (tag : StateTag) (prev : StateObj) : StateObj :=
  match tag with
  | .inactive => ⟨.inactive, none, none, none⟩
  | .isInIdle => ⟨.isInIdle, none, none, none⟩
  | .wantEcho => ⟨.wantEcho, prev.sentCmd, none, none⟩
  | .wantRply => ⟨.wantRply, prev.sentCmd, prev.echoPkt, none⟩

/-- The mutable fields of `ProtocolContext` that the claims are about.
`cmd`/`qos`/`cmdTxCount` are `self._cmd`/`self._qos`/`self._cmd_tx_count`
(all `None`-able), `cmdTxLimit` is `self._cmd_tx_limit` (initialised to
`None` in `__init__`), `maxRetryLimit` is `self.max_retry_limit`, and
`hgiId` is `self._protocol.hgi_id`, the local interface's real id. -/
structure Context where
  state : StateObj
  cmd : Option Command
  qos : Option QosParams
  cmdTxCount : Option Nat
  cmdTxLimit : Option Nat
  maxRetryLimit : Nat
  hgiId : String
deriving DecidableEq, Repr

/-- Exceptions a future can be completed with (kinds, per the source's
exception taxonomy). -/
inductive PyError
  | protocolSendFailedMaxRetries
  | transportConnLost
  | transportWriteError
  | protocolFsmError
deriving DecidableEq, Repr

/-- Side effects emitted by the (otherwise pure) embedded handlers:
future completions (`fut.set_result` / `fut.set_exception`), transport
writes (`create_task(send_fnc_wrapper(cmd))`), dispatch scheduling
(`call_soon(_check_buffer_for_cmd)`), expiry-timer starts
(`create_task(expire_state_on_timeout())`, `true` for the echo timer)
and the three warning log lines of the state handlers. -/
inductive Effect
  | futResult (p : Packet)
  | futException (e : PyError)
  | txWrite (c : Command)
  | checkBuffer
  | startTimer (echoTimer : Bool)
  | logReplyInWantEcho
  | logEchoInWantRply
  | logPktInInactive
deriving DecidableEq, Repr

/-- Steps 1-4 of `ProtocolContext.set_state`: complete the future per the
`result` / `exception` / `expired` flags, build the new state object, and
update `_cmd_tx_count` / `_cmd_tx_limit` / `_cmd` / `_qos` exactly as the
source does (the `.getD` defaults stand where the source `assert`s the
field is set). -/
def setStateCore (ctx : Context) (target : StateTag) (expired timedOut : Bool)
    (exception : Option PyError) (result : Option Packet) : Context × List Effect :=
  let futFx : List Effect :=
    match result with
    | some p => [.futResult p]
    | none =>
      match exception with
      | some e => [.futException e]
      | none => if expired then [.futException .protocolSendFailedMaxRetries] else []
  let st := mkState target ctx.state
  let ctx1 := { ctx with state := st }
  let ctx2 :=
    if timedOut then
      { ctx1 with cmdTxCount := ctx1.cmdTxCount.map (· + 1) }
    else if st.tag = .wantEcho then
      { ctx1 with
        cmdTxLimit := some (min ((ctx1.qos.map QosParams.maxRetries).getD 0) ctx1.maxRetryLimit + 1)
        cmdTxCount := some 1 }
    else if st.tag ≠ .wantRply then
      { ctx1 with cmd := none, qos := none, cmdTxCount := none }
    else ctx1
  (ctx2, futFx)

/-- `ProtocolContext.set_state`, including the `effect_state` callback it
schedules: on `timed_out` re-send the in-flight command
(`_send_cmd(self._cmd, is_retry=True)`, whose `WantEcho.cmd_sent` is a
no-op, so only the transport write remains); in `IsInIdle` schedule a
buffer check; in `WantRply` with `wait_for_reply` false immediately
`set_state(IsInIdle, result=echo)`; otherwise start the expiry timer. -/
def setState (ctx : Context) (target : StateTag) (expired timedOut : Bool)
    (exception : Option PyError) (result : Option Packet) : Context × List Effect :=
  let r := setStateCore ctx target expired timedOut exception result
  let ctx2 := r.1
  let retryFx : List Effect :=
    if timedOut then
      match ctx2.cmd with
      | some c => [.txWrite c]
      | none => []
    else []
  match ctx2.state.tag with
  | .isInIdle => (ctx2, r.2 ++ retryFx ++ [.checkBuffer])
  | .wantEcho => (ctx2, r.2 ++ retryFx ++ [.startTimer true])
  | .wantRply =>
    if (ctx2.qos.map QosParams.waitForReply).getD true then
      (ctx2, r.2 ++ retryFx ++ [.startTimer false])
    else
      let r2 := setStateCore ctx2 .isInIdle false false none ctx2.state.echoPkt
      (r2.1, r.2 ++ retryFx ++ r2.2 ++ [.checkBuffer])
  | .inactive => (ctx2, r.2 ++ retryFx)

/-! ## Per-state event handlers -/

/-- Header normalization used on the receive side of `WantEcho.pkt_rcvd`:
if the sentinel `HGI_DEVICE_ID` occurs in the header, rewrite it to the
local interface's real id. -/
def normHdr (hgiId hdr : String) : String :=
  if hasSubstrS hdr HGI_DEVICE_ID then strReplace hdr HGI_DEVICE_ID hgiId else hdr

/-- The false-reply test at the top of `WantEcho.pkt_rcvd`: the command
expects a reply, the packet's (raw) header equals `rx_header`, and the
packet's destination equals the command's source. -/
def falseReplyTest (cmd : Command) (pkt : Packet) : Prop :=
  cmd.rxHeader ≠ "" ∧ pkt.hdr = cmd.rxHeader ∧ pkt.dstId = cmd.srcId

instance (cmd : Command) (pkt : Packet) : Decidable (falseReplyTest cmd pkt) := by
  unfold falseReplyTest; infer_instance

/-- `WantEcho.pkt_rcvd`: reject false replies (log, keep waiting);
normalize the packet header's sentinel id; ignore packets whose
normalized header differs from the (stored) `tx_header`; otherwise record
the echo and move to `WantRply` (reply expected) or `IsInIdle` with the
echo as result (no reply expected). -/
def wantEchoPktRcvd (ctx : Context) (pkt : Packet) : Context × List Effect :=
  match ctx.state.sentCmd with
  | none => (ctx, [])  -- the source `assert self._sent_cmd` (set when entering WantEcho)
  | some cmd =>
    if falseReplyTest cmd pkt then
      (ctx, [.logReplyInWantEcho])
    else
      let pktHdr := normHdr ctx.hgiId pkt.hdr
      if pktHdr ≠ cmd.txHeader then (ctx, [])
      else
        let ctx1 := { ctx with state := { ctx.state with echoPkt := some pkt } }
        if cmd.rxHeader ≠ "" then setState ctx1 .wantRply false false none none
        else setState ctx1 .isInIdle false false none (some pkt)

/-- `WantRply.pkt_rcvd`: a packet equal to the sent command (another
echo) is logged and ignored; a packet whose raw header differs from
`rx_header` is ignored; otherwise record the reply and move to `IsInIdle`
with the reply as result. -/
def wantRplyPktRcvd (ctx : Context) (pkt : Packet) : Context × List Effect :=
  match ctx.state.sentCmd with
  | none => (ctx, [])  -- the source `assert self._sent_cmd`
  | some cmd =>
    if pkt.frame = cmd.frame then  -- Python `pkt == self._sent_cmd` (frame equality)
      (ctx, [.logEchoInWantRply])
    else if pkt.hdr ≠ cmd.rxHeader then (ctx, [])
    else
      let ctx1 := { ctx with state := { ctx.state with rplyPkt := some pkt } }
      setState ctx1 .isInIdle false false none (some pkt)

/-- `ProtocolContext.pkt_received`, dispatching on the current state:
`Inactive` warns unless the packet is a puzzle packet, `IsInIdle` does
nothing. -/
def pktRcvd (ctx : Context) (pkt : Packet) : Context × List Effect :=
  match ctx.state.tag with
  | .inactive => (ctx, if pkt.code ≠ PUZZ_CODE then [.logPktInInactive] else [])
  | .isInIdle => (ctx, [])
  | .wantEcho => wantEchoPktRcvd ctx pkt
  | .wantRply => wantRplyPktRcvd ctx pkt

/-- The tail of `_check_buffer_for_cmd` once an entry `(cmd, qos)` with a
live future has been pulled from the queue (`self._cmd`/`self._qos` are
assigned from the entry), followed by `_send_cmd(cmd, is_retry=False)`:
from `IsInIdle` the command's `tx_header` sentinel is rewritten in place,
the state moves to `WantEcho` and the frame is written to the transport;
from `WantEcho` the `cmd_sent` assertion fails (no transition is
modelled); from the other states the base-class `cmd_sent` raises
`ProtocolFsmError`, which `_send_cmd` catches with
`set_state(IsInIdle, exception=err)`. -/
def dispatchCmd (ctx : Context) (cmd : Command) (qos : QosParams) : Context × List Effect :=
  let ctx0 := { ctx with cmd := some cmd, qos := some qos }
  match ctx0.state.tag with
  | .isInIdle =>
    let cmd1 :=
      if hasSubstrS cmd.txHeader HGI_DEVICE_ID then
        { cmd with txHeader := strReplace cmd.txHeader HGI_DEVICE_ID ctx0.hgiId }
      else cmd
    let ctx1 := { ctx0 with
      cmd := some cmd1
      state := { ctx0.state with sentCmd := some cmd1 } }
    let r := setState ctx1 .wantEcho false false none none
    (r.1, r.2 ++ [.txWrite cmd1])
  | .wantEcho => (ctx0, [])
  | _ => setState ctx0 .isInIdle false false (some .protocolFsmError) none

/-- The body of `expire_state_on_timeout` after the sleep: retry while
`tx_count < tx_limit`, else give up (`set_state(IsInIdle, expired=True)`). -/
def onExpiry (ctx : Context) : Context × List Effect :=
  match ctx.cmdTxCount, ctx.cmdTxLimit with
  | some n, some l =>
    if n < l then setState ctx .wantEcho false true none none
    else setState ctx .isInIdle true false none none
  | _, _ => (ctx, [])  -- the source `assert isinstance(self._cmd_tx_count, int)`

/-! ## `send_cmd` -/

/-- How the awaited send future resolves, seen from `send_cmd`'s
`wait_for`: a packet result, an exception, or the outer timeout. -/
inductive SendOutcome
  | resolved (p : Packet)
  | raised (e : PyError)
  | timedOut
deriving DecidableEq, Repr

/-- The terminal `ProtocolSendFailed` raised by `send_cmd` (each
constructor stands for one message shape; `expiredTimer` carries the `N`
of `"Expired global timer of N sec"`, and `fromFuture` the wrapped cause
pulled out of the future). -/
inductive SendError
  | noTransport
  | bufferOverflow
  | expiredTimer (timeout : ℚ)
  | fromFuture (e : PyError)
deriving DecidableEq, Repr

/-- `ProtocolContext.send_cmd`: fail fast when `Inactive`; fail on a full
queue; otherwise (scheduling a dispatch round when idle) await the future
under `min(qos.timeout, SEND_TIMEOUT_LIMIT)`.  On the outer timeout,
force the FSM back to `IsInIdle` exactly when this command is the
in-flight one (`self._cmd is cmd`), and raise the expired-global-timer
error; otherwise surface the future's result or wrap its exception.
`queueFull` and `outcome` are oracles for the queue state and for how the
future resolves; `ctx` is the context at resolution time. -/
def sendCmd (ctx : Context) (cmd : Command) (qos : QosParams) (queueFull : Bool)
    (outcome : SendOutcome) : Context × List Effect × Except SendError Packet :=
  if ctx.state.tag = .inactive then
    (ctx, [], .error .noTransport)
  else if queueFull then
    (ctx, [], .error .bufferOverflow)
  else
    let scheduleFx : List Effect := if ctx.state.tag = .isInIdle then [.checkBuffer] else []
    let timeout := min qos.timeout SEND_TIMEOUT_LIMIT
    match outcome with
    | .timedOut =>
      if ctx.cmd = some cmd then
        let r := setState ctx .isInIdle false false none none
        (r.1, scheduleFx ++ r.2, .error (.expiredTimer timeout))
      else
        (ctx, scheduleFx, .error (.expiredTimer timeout))
    | .resolved p => (ctx, scheduleFx, .ok p)
    | .raised e => (ctx, scheduleFx, .error (.fromFuture e))

/-! ## Discovery scheduler (`ramses_rf/entity_base.py`) -/

/-- The verb constant `I_`.  Modelled from the spec: defined in the
(absent) `protocol` package; the spec fixes verbs to two-character,
space-padded strings, so `I_ = " I"`. -/
def I_VERB : String := " I"

/-- `MIN_CYCLE_SECS` of `_poll_disc_tasks`. -/
def MIN_CYCLE_SECS : ℚ := 3

/-- `MAX_CYCLE_SECS` of `_poll_disc_tasks`. -/
def MAX_CYCLE_SECS : ℚ := 10

/-- A decoded `Message` as the discovery loop sees it: its header and its
timestamp `dtm` (messages are ordered by `dtm`). -/
structure DMessage where
  hdr : String
  dtm : ℚ
deriving DecidableEq, Repr

/-- One entry of `Discovery._disc_tasks` (keyed by `cmd.rx_header`). -/
structure DiscTask where
  command : Command
  interval : ℚ
  lastMsg : Option DMessage
  lastRan : Option ℚ
  nextDue : ℚ
  timeout : ℚ
deriving DecidableEq, Repr

/-- Python `max(msgs)` over messages (ordered by `dtm`; keeps the
earlier element on ties, as `max` does). -/
def pyMaxD : List DMessage → Option DMessage
  | [] => none
  | m :: ms => some (ms.foldl (fun a b => if a.dtm < b.dtm then b else a) m)

/-- The header the discovery loop looks up: `I_ + hdr[2:]` where `hdr` is
the task's key, `cmd.rx_header`. -/
def discLookupHdr (hdr : String) : String :=
  I_VERB ++ strDrop hdr 2

/-- `Discovery._send_disc_task`: send the task's command and await the
reply under `task["timeout"] * 5`; a `TimeoutError` yields `None`.
`replyWithin` is the oracle for `async_send_cmd` under a given cap. -/
def sendDiscTask (replyWithin : ℚ → Option DMessage) (task : DiscTask) : Option DMessage :=
  replyWithin (task.timeout * 5)

/-- The per-task body of one `_poll_disc_tasks` iteration.  `lookup` is
`_get_msg_by_hdr` on the message index, `replyWithin` the send oracle and
`now` the `dt.now()` captured for this task.  Returns the updated task
and whether `_send_disc_task` was invoked.  The source builds the lookup
list with the same expression twice (`for v in (I_, RP)` without using
`v`), which is reproduced here. -/
def pollDiscTaskStep (lookup : String → Option DMessage)
    (replyWithin : ℚ → Option DMessage) (now : ℚ) (task : DiscTask) :
    DiscTask × Bool :=
  let hdr := task.command.rxHeader
  let msgs := [lookup (discLookupHdr hdr), lookup (discLookupHdr hdr)].filterMap id
  let recentMsg : Option DMessage :=
    match pyMaxD msgs with
    | some msg => if task.nextDue < msg.dtm + task.interval then some msg else none
    | none => none
  match recentMsg with
  | some msg =>
    ({ task with
        lastMsg := some msg
        lastRan := some msg.dtm
        nextDue := msg.dtm + task.interval }, false)
  | none =>
    if task.nextDue ≤ now then
      match sendDiscTask replyWithin task with
      | some msg =>
        ({ task with
            lastMsg := some msg
            lastRan := some msg.dtm
            nextDue := msg.dtm + task.interval }, true)
      | none => (task, true)  -- TimeoutError: skip this task this round
    else (task, false)

/-- `min(t["next_due"] for t in tasks)` for a non-empty task list. -/
def minNextDue (t : DiscTask) (ts : List DiscTask) : ℚ :=
  ts.foldl (fun a tk => min a tk.nextDue) t.nextDue

/-- The inter-iteration sleep of `_poll_disc_tasks`:
`min(max(min(next_due) - now, MIN_CYCLE_SECS), MAX_CYCLE_SECS)` when
tasks exist, else `MAX_CYCLE_SECS`. -/
def pollSleepSecs (tasks : List DiscTask) (now : ℚ) : ℚ :=
  match tasks with
  | [] => MAX_CYCLE_SECS
  | t :: ts => min (max (minNextDue t ts - now) MIN_CYCLE_SECS) MAX_CYCLE_SECS

/-! ## Message index

The `MessageIndex` implementation module (`ramses_rf/database.py`) is not
among the sources at hand — only its tests are — so the definitions below
are modelled from the spec, as their doc comments state. -/

/-- Modelled from the spec: one `MessageIndex` row,
`(hdr, code, verb, src, dst, ctx, dtm, plk, msg)`, with `hdr` the unique
key; the row stands for the stored message itself. -/
structure MIRow where
  hdr : String
  code : String
  verb : String
  src : String
  dst : String
  ctx : String
  dtm : ℚ
  plk : String
deriving DecidableEq, Repr

/-- Modelled from the spec: a `MessageIndex` is its rows in insertion
order (`all()` returns them). -/
def MessageIndexT : Type := List MIRow

/-- The index invariant: at most one row per `hdr`. -/
def hdrUnique (db : List MIRow) : Prop :=
  db.Pairwise (fun a b => a.hdr ≠ b.hdr)

/-- Modelled from the spec: `MessageIndex.add(msg)` — insert a row keyed
by `msg.hdr`; if a row with the same `hdr` exists it is replaced in place
and returned, else the row is appended and nothing is returned. -/
def miAdd (db : List MIRow) (m : MIRow) : List MIRow × Option MIRow :=
  match db.find? (fun r => r.hdr == m.hdr) with
  | some old => (db.map (fun r => if r.hdr == m.hdr then m else r), some old)
  | none => (db ++ [m], none)

/-- `add` over a whole sequence of messages, starting from the empty
index. -/
def miAddAll (ms : List MIRow) : List MIRow :=
  ms.foldl (fun db m => (miAdd db m).1) []

/-- An optional equality filter of `contains`. -/
def optEq (o : Option String) (v : String) : Bool :=
  match o with
  | none => true
  | some s => s == v

/-- Modelled from the spec: `MessageIndex.contains(...)` — any subset of
field filters; `code`/`verb`/`src`/`dst`/`ctx` match by equality, `plk`
by substring. -/
def miContains (db : List MIRow) (code? verb? src? dst? ctx? plk? : Option String) : Bool :=
  db.any fun r =>
    optEq code? r.code && optEq verb? r.verb && optEq src? r.src &&
    optEq dst? r.dst && optEq ctx? r.ctx &&
    (match plk? with
     | none => true
     | some p => hasSubstrS r.plk p)

/-- First non-whitespace token of an SQL string (`List Char` version). -/
def firstTokenL : List Char → List Char
  | [] => []
  | c :: cs =>
    if c.isWhitespace then firstTokenL cs
    else (c :: cs).takeWhile (fun d => !d.isWhitespace)

/-- First non-whitespace token of an SQL string. -/
def firstToken (s : String) : String :=
  String.mk (firstTokenL s.data)

/-- Modelled from the spec: `MessageIndex.qry_field(sql, ...)` — reject
any statement whose first non-whitespace token is not `SELECT` with
`ValueError("Only SELECT queries are allowed")`; otherwise run the query
(`exec` is the oracle for the backing engine, whose returned tuples are
out of the index's contract here).  The index itself is returned
unchanged in both cases. -/
def qryField (db : List MIRow) (sql : String) (exec : String → List (List String)) :
    Except String (List (List String)) × List MIRow :=
  if firstToken sql = "SELECT" then (.ok (exec sql), db)
  else (.error "Only SELECT queries are allowed", db)

/-! ## Unfolding lemmas for `set_state`

One lemma per call shape used by the handlers; each is definitional. -/

theorem setState_isInIdle_plain (ctx : Context) :
    setState ctx .isInIdle false false none none =
      ({ ctx with
          state := ⟨.isInIdle, none, none, none⟩
          cmd := none
          qos := none
          cmdTxCount := none },
        [Effect.checkBuffer]) := rfl

theorem setState_isInIdle_result (ctx : Context) (p : Packet) :
    setState ctx .isInIdle false false none (some p) =
      ({ ctx with
          state := ⟨.isInIdle, none, none, none⟩
          cmd := none
          qos := none
          cmdTxCount := none },
        [Effect.futResult p, Effect.checkBuffer]) := rfl

theorem setState_isInIdle_expired (ctx : Context) :
    setState ctx .isInIdle true false none none =
      ({ ctx with
          state := ⟨.isInIdle, none, none, none⟩
          cmd := none
          qos := none
          cmdTxCount := none },
        [Effect.futException .protocolSendFailedMaxRetries, Effect.checkBuffer]) := rfl

theorem setState_isInIdle_exception (ctx : Context) (e : PyError) :
    setState ctx .isInIdle false false (some e) none =
      ({ ctx with
          state := ⟨.isInIdle, none, none, none⟩
          cmd := none
          qos := none
          cmdTxCount := none },
        [Effect.futException e, Effect.checkBuffer]) := rfl

theorem setState_wantEcho_fresh (ctx : Context) :
    setState ctx .wantEcho false false none none =
      ({ ctx with
          state := ⟨.wantEcho, ctx.state.sentCmd, none, none⟩
          cmdTxLimit := some (min ((ctx.qos.map QosParams.maxRetries).getD 0) ctx.maxRetryLimit + 1)
          cmdTxCount := some 1 },
        [Effect.startTimer true]) := rfl

theorem setState_wantEcho_timedOut (ctx : Context) (c : Command) (h : ctx.cmd = some c) :
    setState ctx .wantEcho false true none none =
      ({ ctx with
          state := ⟨.wantEcho, ctx.state.sentCmd, none, none⟩
          cmdTxCount := ctx.cmdTxCount.map (· + 1) },
        [Effect.txWrite c, Effect.startTimer true]) := by
  unfold setState setStateCore
  simp [mkState, h]

theorem setState_wantRply_wait (ctx : Context)
    (h : (ctx.qos.map QosParams.waitForReply).getD true = true) :
    setState ctx .wantRply false false none none =
      ({ ctx with state := ⟨.wantRply, ctx.state.sentCmd, ctx.state.echoPkt, none⟩ },
        [Effect.startTimer false]) := by
  unfold setState setStateCore
  simp [mkState, h]

theorem setState_wantRply_nowait (ctx : Context) (p : Packet)
    (hq : (ctx.qos.map QosParams.waitForReply).getD true = false)
    (he : ctx.state.echoPkt = some p) :
    setState ctx .wantRply false false none none =
      ({ ctx with
          state := ⟨.isInIdle, none, none, none⟩
          cmd := none
          qos := none
          cmdTxCount := none },
        [Effect.futResult p, Effect.checkBuffer]) := by
  unfold setState setStateCore
  simp [mkState, hq, he]

theorem dispatchCmd_isInIdle (ctx : Context) (c : Command) (qos : QosParams)
    (hIdle : ctx.state.tag = .isInIdle) :
    dispatchCmd ctx c qos =
      ({ ctx with
          state := ⟨.wantEcho, some { c with txHeader := normHdr ctx.hgiId c.txHeader }, none, none⟩
          cmd := some { c with txHeader := normHdr ctx.hgiId c.txHeader }
          qos := some qos
          cmdTxLimit := some (min qos.maxRetries ctx.maxRetryLimit + 1)
          cmdTxCount := some 1 },
        [Effect.startTimer true,
          Effect.txWrite { c with txHeader := normHdr ctx.hgiId c.txHeader }]) := by
  unfold dispatchCmd normHdr
  by_cases h : hasSubstrS c.txHeader HGI_DEVICE_ID
  · simp [hIdle, h, setState_wantEcho_fresh]
  · simp [hIdle, h, setState_wantEcho_fresh]

/-! ## C1: `send_cmd` error paths -/

/-- C1: For every call to `send_cmd`: if the FSM state is `Inactive` it
fails with `ProtocolSendFailed` ("no transport"); if the priority queue
is full it fails with `ProtocolSendFailed` ("buffer overflow"); and if
the future is not completed within `min(qos.timeout, SEND_TIMEOUT_LIMIT)`
it raises `ProtocolSendFailed` ("Expired global timer of N sec") with
exactly that `N`, first forcing the FSM back to `IsInIdle` when (and only
when) the timed-out command is the in-flight one. -/
theorem sendCmd_error_paths (ctx : Context) (cmd : Command) (qos : QosParams)
    (queueFull : Bool) (outcome : SendOutcome) :
    (ctx.state.tag = .inactive →
      sendCmd ctx cmd qos queueFull outcome = (ctx, [], .error .noTransport)) ∧
    (ctx.state.tag ≠ .inactive → queueFull = true →
      sendCmd ctx cmd qos queueFull outcome = (ctx, [], .error .bufferOverflow)) ∧
    (ctx.state.tag ≠ .inactive → queueFull = false →
      (sendCmd ctx cmd qos queueFull .timedOut).2.2 =
        .error (.expiredTimer (min qos.timeout SEND_TIMEOUT_LIMIT)) ∧
      (ctx.cmd = some cmd →
        (sendCmd ctx cmd qos queueFull .timedOut).1.state.tag = .isInIdle) ∧
      (ctx.cmd ≠ some cmd → (sendCmd ctx cmd qos queueFull .timedOut).1 = ctx)) := by
  refine ⟨fun hIn => ?_, fun hIn hFull => ?_, fun hIn hFull => ?_⟩
  · simp [sendCmd, hIn]
  · simp [sendCmd, hIn, hFull]
  · refine ⟨?_, fun hCmd => ?_, fun hCmd => ?_⟩
    · simp only [sendCmd, if_neg hIn, hFull, if_neg Bool.false_ne_true]
      by_cases hCmd : ctx.cmd = some cmd <;>
        simp [hCmd, setState_isInIdle_plain]
    · simp [sendCmd, hIn, hFull, hCmd, setState_isInIdle_plain]
    · simp [sendCmd, hIn, hFull, hCmd]

/-- Witness for C1 at a concrete context (in `WantEcho`, queue not full,
outer timeout fired while this command is in flight). -/
theorem sendCmd_error_paths_witness :
    let c : Command :=
      { frame := "c", txHeader := "T", rxHeader := "R", srcId := "s", dstId := "d" }
    let q : QosParams := { timeout := 20, maxRetries := 1, waitForReply := true }
    let ctx : Context :=
      { state := ⟨.wantEcho, some c, none, none⟩, cmd := some c, qos := some q,
        cmdTxCount := some 1, cmdTxLimit := some 2, maxRetryLimit := 3, hgiId := "h" }
    (sendCmd ctx c q false .timedOut).2.2 = .error (.expiredTimer 15) ∧
      (sendCmd ctx c q false .timedOut).1.state.tag = .isInIdle := by
  intro c q ctx
  have h := sendCmd_error_paths ctx c q false .timedOut
  refine ⟨?_, h.2.2 (by decide) rfl |>.2.1 rfl⟩
  have h1 := (h.2.2 (by decide) rfl).1
  have : min q.timeout SEND_TIMEOUT_LIMIT = 15 := by decide
  rw [h1, this]

/-! ## C2: retry counters and the transmit-count bound -/

/-- C2: A first dispatch (`cmd_sent` with `retry=false`, from `IsInIdle`)
sets `tx_count := 1` and `tx_limit := min(qos.max_retries,
MAX_RETRY_LIMIT) + 1`; a timer expiry with `tx_count < tx_limit`
retransmits the same command and increments `tx_count` only, ending in
`WantEcho`; a timer expiry with `tx_count = tx_limit` fails the in-flight
future with `ProtocolSendFailed` ("Exceeded maximum retries") and returns
the FSM to `IsInIdle`; so the transmit count never exceeds
`min(qos.max_retries, MAX_RETRY_LIMIT) + 1`. -/
theorem retry_limit_spec (ctx : Context) (c : Command) (qos : QosParams) (n l : Nat) :
    (ctx.state.tag = .isInIdle → ctx.maxRetryLimit = MAX_RETRY_LIMIT →
      (dispatchCmd ctx c qos).1.state.tag = .wantEcho ∧
      (dispatchCmd ctx c qos).1.cmdTxCount = some 1 ∧
      (dispatchCmd ctx c qos).1.cmdTxLimit = some (min qos.maxRetries MAX_RETRY_LIMIT + 1) ∧
      1 ≤ min qos.maxRetries MAX_RETRY_LIMIT + 1) ∧
    (ctx.cmdTxCount = some n → ctx.cmdTxLimit = some l → n < l → ctx.cmd = some c →
      (onExpiry ctx).1.state.tag = .wantEcho ∧
      (onExpiry ctx).1.state.sentCmd = ctx.state.sentCmd ∧
      (onExpiry ctx).1.cmd = some c ∧
      (onExpiry ctx).1.cmdTxCount = some (n + 1) ∧
      (onExpiry ctx).1.cmdTxLimit = some l ∧
      (onExpiry ctx).2 = [Effect.txWrite c, Effect.startTimer true] ∧
      n + 1 ≤ l) ∧
    (ctx.cmdTxCount = some n → ctx.cmdTxLimit = some l → n = l →
      (onExpiry ctx).1.state.tag = .isInIdle ∧
      (onExpiry ctx).1.cmd = none ∧
      (onExpiry ctx).1.cmdTxCount = none ∧
      (onExpiry ctx).2 =
        [Effect.futException .protocolSendFailedMaxRetries, Effect.checkBuffer]) := by
  refine ⟨fun hIdle hMax => ?_, fun hCnt hLim hLt hCmd => ?_, fun hCnt hLim hEq => ?_⟩
  · simp only [dispatchCmd, hIdle, setState_wantEcho_fresh]
    refine ⟨trivial, trivial, ?_, Nat.le_add_left 1 _⟩
    simp [hMax]
  · have hrw := setState_wantEcho_timedOut ctx c hCmd
    rw [hCnt, hLim, hCmd] at hrw
    have hres : onExpiry ctx = setState ctx .wantEcho false true none none := by
      simp only [onExpiry, hCnt, hLim, if_pos hLt]
    rw [hres, hrw]
    exact ⟨rfl, rfl, rfl, rfl, rfl, rfl, hLt⟩
  · subst hEq
    have hrw := setState_isInIdle_expired ctx
    rw [hLim] at hrw
    have hres : onExpiry ctx = setState ctx .isInIdle true false none none := by
      simp only [onExpiry, hCnt, hLim, if_neg (lt_irrefl n)]
    rw [hres, hrw]
    exact ⟨rfl, rfl, rfl, rfl⟩

/-- Witness for C2 at a concrete context (two retries allowed, first
expiry retries, count at limit expires the send). -/
theorem retry_limit_spec_witness :
    let c : Command :=
      { frame := "c", txHeader := "T", rxHeader := "R", srcId := "s", dstId := "d" }
    let q : QosParams := { timeout := 3, maxRetries := 2, waitForReply := true }
    let ctx : Context :=
      { state := ⟨.wantEcho, some c, none, none⟩, cmd := some c, qos := some q,
        cmdTxCount := some 1, cmdTxLimit := some 3, maxRetryLimit := 3, hgiId := "h" }
    (onExpiry ctx).1.state.tag = .wantEcho ∧
      (onExpiry ctx).1.cmdTxCount = some 2 ∧
      (onExpiry ctx).2 = [Effect.txWrite c, Effect.startTimer true] := by
  intro c q ctx
  have h := (retry_limit_spec ctx c q 1 3).2.1 rfl rfl (by decide) rfl
  exact ⟨h.1, h.2.2.2.1, h.2.2.2.2.2.1⟩

/-! ## C3: echo matching with sentinel normalization

The claim as frozen fails on the code: a packet whose normalized header
equals `tx_header` can simultaneously satisfy the false-reply test
(`rx_header` non-empty, raw header equal to `rx_header`, destination
equal to the command's source — possible when `tx_header = rx_header`),
and `WantEcho.pkt_rcvd` then logs and ignores it instead of accepting it
as the echo.  The amended claim adds that exclusion. -/

/-- The command of the C3 counterexample: equal `tx_header` and
`rx_header`. -/
def c3cmd : Command :=
  { frame := "c3", txHeader := "2349|RP|01:078710|02", rxHeader := "2349|RP|01:078710|02",
    srcId := "18:111111", dstId := "01:078710" }

/-- The context of the C3 counterexample: `WantEcho`, `c3cmd` in
flight. -/
def c3ctx : Context :=
  { state := ⟨.wantEcho, some c3cmd, none, none⟩, cmd := some c3cmd,
    qos := some { timeout := 3, maxRetries := 1, waitForReply := true },
    cmdTxCount := some 1, cmdTxLimit := some 2, maxRetryLimit := 3, hgiId := "18:111111" }

/-- The packet of the C3 counterexample: header equal to the command's
`tx_header` (so, per the claim, it should be accepted as the echo and
move the FSM to `WantRply`), destination equal to the command's
source. -/
def c3pkt : Packet :=
  { frame := "p3", hdr := "2349|RP|01:078710|02", code := "2349", srcId := "01:078710",
    dstId := "18:111111" }

/-- C3 counterexample: the packet's normalized header equals the sent
command's (non-empty-`rx_header`) `tx_header`, yet the FSM does not
transition to `WantRply`: the false-reply test fires first, the packet is
only logged and the context is unchanged. -/
theorem echo_match_counterexample :
    normHdr c3ctx.hgiId c3pkt.hdr = c3cmd.txHeader ∧
    c3ctx.state.sentCmd = some c3cmd ∧
    c3cmd.rxHeader ≠ "" ∧
    (pktRcvd c3ctx c3pkt).1 = c3ctx ∧
    (pktRcvd c3ctx c3pkt).2 = [Effect.logReplyInWantEcho] := by
  decide

/-- C3 (amended): starting from `IsInIdle`, dispatch a command `c` (its
`tx_header` sentinel id is rewritten in place) and receive a packet `p`
that does not satisfy the false-reply test and whose header — after
rewriting any occurrence of `HGI_DEVICE_ID` in either the command's
`tx_header` or the packet's header to the local id — equals the
command's `tx_header`: if `rx_header` is empty the FSM transitions to
`IsInIdle` completing the future with `p` as result; otherwise (here
under `wait_for_reply` true, the stage C7 covers being opted out
otherwise) it transitions to `WantRply` carrying `p` as the echo. -/
theorem echo_match_amended (ctx : Context) (c : Command) (qos : QosParams) (p : Packet)
    (hIdle : ctx.state.tag = .isInIdle)
    (hNoFR : ¬(c.rxHeader ≠ "" ∧ p.hdr = c.rxHeader ∧ p.dstId = c.srcId))
    (hHdr : normHdr ctx.hgiId p.hdr = normHdr ctx.hgiId c.txHeader) :
    (c.rxHeader = "" →
      (pktRcvd (dispatchCmd ctx c qos).1 p).1.state.tag = .isInIdle ∧
      Effect.futResult p ∈ (pktRcvd (dispatchCmd ctx c qos).1 p).2) ∧
    (c.rxHeader ≠ "" → qos.waitForReply = true →
      (pktRcvd (dispatchCmd ctx c qos).1 p).1.state.tag = .wantRply ∧
      (pktRcvd (dispatchCmd ctx c qos).1 p).1.state.echoPkt = some p) := by
  rw [dispatchCmd_isInIdle ctx c qos hIdle]
  have hNoFR' : ¬ falseReplyTest { c with txHeader := normHdr ctx.hgiId c.txHeader } p :=
    hNoFR
  simp only [pktRcvd, wantEchoPktRcvd, if_neg hNoFR', if_neg (not_not_intro hHdr)]
  constructor
  · intro hEmpty
    have hne : ¬(Command.rxHeader { c with txHeader := normHdr ctx.hgiId c.txHeader } ≠ "") :=
      not_not_intro hEmpty
    rw [if_neg hne, setState_isInIdle_result]
    exact ⟨rfl, by simp⟩
  · intro hNE hWait
    have hne : Command.rxHeader { c with txHeader := normHdr ctx.hgiId c.txHeader } ≠ "" := hNE
    rw [if_pos hne, setState_wantRply_wait _ (by simpa using hWait)]
    exact ⟨rfl, rfl⟩

/-- Witness for C3 (amended) at the spec's sentinel-rewrite scenario:
`tx_header` carries `18:000730`, the local id is `18:111111`, the packet
header carries `18:111111`, no reply expected. -/
theorem echo_match_amended_witness :
    let c : Command :=
      { frame := "c", txHeader := "30C9| I|18:000730", rxHeader := "",
        srcId := "18:000730", dstId := "63:262142" }
    let q : QosParams := { timeout := 3, maxRetries := 1, waitForReply := true }
    let ctx : Context :=
      { state := ⟨.isInIdle, none, none, none⟩, cmd := none, qos := none,
        cmdTxCount := none, cmdTxLimit := none, maxRetryLimit := 3, hgiId := "18:111111" }
    let p : Packet :=
      { frame := "p", hdr := "30C9| I|18:111111", code := "30C9",
        srcId := "18:111111", dstId := "63:262142" }
    (pktRcvd (dispatchCmd ctx c q).1 p).1.state.tag = .isInIdle ∧
      Effect.futResult p ∈ (pktRcvd (dispatchCmd ctx c q).1 p).2 := by
  intro c q ctx p
  exact (echo_match_amended ctx c q p rfl (by decide) (by decide)).1 rfl

/-! ## C4: the destination check is not part of echo acceptance

In `WantEcho.pkt_rcvd`, `pkt.dst.id == sent_cmd.src.id` appears only
inside the false-reply rejection; the echo acceptance itself compares
only the normalized header with `tx_header`. -/

/-- The command of the C4 counterexample. -/
def c4cmd : Command :=
  { frame := "c4", txHeader := "3220|RQ|10:048122|05", rxHeader := "3220|RP|10:048122|05",
    srcId := "18:198151", dstId := "10:052644" }

/-- The context of the C4 counterexample: `WantEcho`, `c4cmd` in
flight. -/
def c4ctx : Context :=
  { state := ⟨.wantEcho, some c4cmd, none, none⟩, cmd := some c4cmd,
    qos := some { timeout := 3, maxRetries := 1, waitForReply := true },
    cmdTxCount := some 1, cmdTxLimit := some 2, maxRetryLimit := 3, hgiId := "18:111111" }

/-- The packet of the C4 counterexample: header equal to the command's
`tx_header` but addressed to a destination different from the command's
source. -/
def c4pkt : Packet :=
  { frame := "p4", hdr := "3220|RQ|10:048122|05", code := "3220", srcId := "18:198151",
    dstId := "18:555555" }

/-- C4 counterexample: a packet matching `tx_header` whose destination
differs from the sent command's source IS accepted as the echo (the FSM
moves to `WantRply` carrying it), contradicting the claim that such a
packet is not accepted. -/
theorem echo_dst_counterexample :
    c4pkt.hdr = c4cmd.txHeader ∧
    c4pkt.dstId ≠ c4cmd.srcId ∧
    c4ctx.state.sentCmd = some c4cmd ∧
    (pktRcvd c4ctx c4pkt).1.state.tag = .wantRply ∧
    (pktRcvd c4ctx c4pkt).1.state.echoPkt = some c4pkt := by
  decide

/-- C4 (amended): in `WantEcho`, the destination-equals-source condition
belongs only to the false-reply rejection; a packet that does not satisfy
the false-reply test and whose normalized header equals the sent
command's `tx_header` is accepted as the echo with no condition on its
destination. -/
theorem echo_no_dst_check (ctx : Context) (c : Command) (p : Packet)
    (hTag : ctx.state.tag = .wantEcho) (hCmd : ctx.state.sentCmd = some c)
    (hNoFR : ¬ falseReplyTest c p)
    (hHdr : normHdr ctx.hgiId p.hdr = c.txHeader) :
    (c.rxHeader ≠ "" → (ctx.qos.map QosParams.waitForReply).getD true = true →
      (pktRcvd ctx p).1.state.tag = .wantRply ∧
      (pktRcvd ctx p).1.state.echoPkt = some p) ∧
    (c.rxHeader = "" →
      (pktRcvd ctx p).1.state.tag = .isInIdle ∧
      Effect.futResult p ∈ (pktRcvd ctx p).2) := by
  simp only [pktRcvd, hTag, wantEchoPktRcvd, hCmd, if_neg hNoFR, if_neg (not_not_intro hHdr)]
  constructor
  · intro hNE hWait
    rw [if_pos hNE, setState_wantRply_wait _ (by simpa using hWait)]
    exact ⟨rfl, rfl⟩
  · intro hEmpty
    rw [if_neg (not_not_intro hEmpty), setState_isInIdle_result]
    exact ⟨rfl, by simp⟩

/-- Witness for C4 (amended) at the counterexample's input: the theorem
applies with no destination hypothesis even though the destinations
differ. -/
theorem echo_no_dst_check_witness :
    c4pkt.dstId ≠ c4cmd.srcId ∧
    (pktRcvd c4ctx c4pkt).1.state.tag = .wantRply ∧
    (pktRcvd c4ctx c4pkt).1.state.echoPkt = some c4pkt := by
  have h := (echo_no_dst_check c4ctx c4cmd c4pkt rfl rfl (by decide) (by decide)).1
    (by decide) (by decide)
  exact ⟨by decide, h.1, h.2⟩

/-! ## C7: `wait_for_reply = false` completes on the echo -/

/-- C7: when `qos.wait_for_reply` is false and the matching echo arrives
in `WantEcho`, the FSM ends in `IsInIdle` with the future completed with
the echo packet as result, even though `rx_header` is non-empty; a packet
arriving afterwards leaves the context unchanged and emits nothing. -/
theorem wait_for_reply_false_early (ctx : Context) (c : Command) (q : QosParams)
    (p p2 : Packet)
    (hTag : ctx.state.tag = .wantEcho) (hCmd : ctx.state.sentCmd = some c)
    (hQos : ctx.qos = some q) (hW : q.waitForReply = false)
    (hNE : c.rxHeader ≠ "")
    (hNoFR : ¬ falseReplyTest c p)
    (hHdr : normHdr ctx.hgiId p.hdr = c.txHeader) :
    (pktRcvd ctx p).1.state.tag = .isInIdle ∧
    Effect.futResult p ∈ (pktRcvd ctx p).2 ∧
    pktRcvd (pktRcvd ctx p).1 p2 = ((pktRcvd ctx p).1, []) := by
  simp only [pktRcvd, hTag, wantEchoPktRcvd, hCmd, if_neg hNoFR,
    if_neg (not_not_intro hHdr), if_pos hNE]
  rw [setState_wantRply_nowait _ p (by simp [hQos, hW]) rfl]
  exact ⟨rfl, by simp, rfl⟩

/-- Witness for C7: echo-then-reply scenario with `wait_for_reply`
false; the echo completes the send and the late reply is ignored. -/
theorem wait_for_reply_false_early_witness :
    let c : Command :=
      { frame := "c", txHeader := "2349|RQ|01:078710|02", rxHeader := "2349|RP|01:078710|02",
        srcId := "18:002563", dstId := "01:078710" }
    let q : QosParams := { timeout := 3, maxRetries := 1, waitForReply := false }
    let ctx : Context :=
      { state := ⟨.wantEcho, some c, none, none⟩, cmd := some c, qos := some q,
        cmdTxCount := some 1, cmdTxLimit := some 2, maxRetryLimit := 3, hgiId := "18:002563" }
    let p : Packet :=
      { frame := "e", hdr := "2349|RQ|01:078710|02", code := "2349",
        srcId := "18:002563", dstId := "01:078710" }
    let p2 : Packet :=
      { frame := "r", hdr := "2349|RP|01:078710|02", code := "2349",
        srcId := "01:078710", dstId := "18:002563" }
    (pktRcvd ctx p).1.state.tag = .isInIdle ∧
      Effect.futResult p ∈ (pktRcvd ctx p).2 ∧
      pktRcvd (pktRcvd ctx p).1 p2 = ((pktRcvd ctx p).1, []) := by
  intro c q ctx p p2
  exact wait_for_reply_false_early ctx c q p p2 rfl rfl rfl rfl (by decide) (by decide)
    (by decide)

/-! ## C8: mismatched packets are logged and ignored -/

/-- C8: mismatched packets never raise and never complete the in-flight
future: in `WantEcho`, a packet satisfying the false-reply test (header
equal to `rx_header`, destination equal to the command's source) leaves
the context unchanged and only logs; in `WantRply`, a packet equal to the
sent command leaves the context unchanged and only logs.  (The handlers
are total functions; the equalities show state, counters and future
untouched.) -/
theorem mismatched_pkts_ignored (ctx : Context) (c : Command) (p : Packet) :
    (ctx.state.tag = .wantEcho → ctx.state.sentCmd = some c →
      falseReplyTest c p →
      pktRcvd ctx p = (ctx, [Effect.logReplyInWantEcho])) ∧
    (ctx.state.tag = .wantRply → ctx.state.sentCmd = some c →
      p.frame = c.frame →
      pktRcvd ctx p = (ctx, [Effect.logEchoInWantRply])) := by
  constructor
  · intro hTag hCmd hFR
    simp only [pktRcvd, hTag, wantEchoPktRcvd, hCmd, if_pos hFR]
  · intro hTag hCmd hEq
    simp only [pktRcvd, hTag, wantRplyPktRcvd, hCmd, if_pos hEq]

/-- The command of the C8 witness. -/
def c8cmd : Command :=
  { frame := "c8", txHeader := "2349|RQ|01:078710|02", rxHeader := "2349|RP|01:078710|02",
    srcId := "18:002563", dstId := "01:078710" }

/-- A `WantEcho` context with `c8cmd` in flight. -/
def c8ctxE : Context :=
  { state := ⟨.wantEcho, some c8cmd, none, none⟩, cmd := some c8cmd,
    qos := some { timeout := 3, maxRetries := 1, waitForReply := true },
    cmdTxCount := some 1, cmdTxLimit := some 2, maxRetryLimit := 3, hgiId := "18:002563" }

/-- A `WantRply` context with `c8cmd` in flight. -/
def c8ctxR : Context :=
  { state := ⟨.wantRply, some c8cmd,
      some { frame := "e8", hdr := "2349|RQ|01:078710|02", code := "2349",
             srcId := "18:002563", dstId := "01:078710" }, none⟩,
    cmd := some c8cmd,
    qos := some { timeout := 3, maxRetries := 1, waitForReply := true },
    cmdTxCount := some 1, cmdTxLimit := some 2, maxRetryLimit := 3, hgiId := "18:002563" }

/-- A premature reply: header equal to `rx_header`, destination equal to
the command's source. -/
def c8rply : Packet :=
  { frame := "r8", hdr := "2349|RP|01:078710|02", code := "2349",
    srcId := "01:078710", dstId := "18:002563" }

/-- A second echo of the sent command (same frame). -/
def c8echo : Packet :=
  { frame := "c8", hdr := "2349|RQ|01:078710|02", code := "2349",
    srcId := "18:002563", dstId := "01:078710" }

/-- Witness for C8: a premature reply in `WantEcho` and a second echo in
`WantRply` are each logged with the context unchanged. -/
theorem mismatched_pkts_ignored_witness :
    pktRcvd c8ctxE c8rply = (c8ctxE, [Effect.logReplyInWantEcho]) ∧
    pktRcvd c8ctxR c8echo = (c8ctxR, [Effect.logEchoInWantRply]) :=
  ⟨(mismatched_pkts_ignored c8ctxE c8cmd c8rply).1 rfl rfl (by decide),
    (mismatched_pkts_ignored c8ctxR c8cmd c8echo).2 rfl rfl (by decide)⟩

/-! ## C10: reply acceptance in `WantRply` -/

/-- C10: in `WantRply`, a received packet completes the send (future
result = packet, FSM back to `IsInIdle`) if and only if the packet is not
equal to the sent command and its raw header equals the command's
`rx_header` — no destination check and no sentinel normalization on the
reply path. -/
theorem wantRply_accept_iff (ctx : Context) (c : Command) (p : Packet)
    (hTag : ctx.state.tag = .wantRply) (hCmd : ctx.state.sentCmd = some c) :
    ((pktRcvd ctx p).1.state.tag = .isInIdle ∧
        Effect.futResult p ∈ (pktRcvd ctx p).2) ↔
      (p.frame ≠ c.frame ∧ p.hdr = c.rxHeader) := by
  simp only [pktRcvd, hTag, wantRplyPktRcvd, hCmd]
  by_cases hF : p.frame = c.frame
  · rw [if_pos hF]
    simp [hF, hTag]
  · rw [if_neg hF]
    by_cases hH : p.hdr = c.rxHeader
    · rw [if_neg (not_not_intro hH), setState_isInIdle_result]
      simp [hF, hH]
    · rw [if_pos hH]
      simp [hF, hH, hTag]

/-- Witness for C10: a same-header reply addressed to a destination
different from the command's source is accepted. -/
theorem wantRply_accept_iff_witness :
    let c : Command :=
      { frame := "cA", txHeader := "3220|RQ|10:048122|05", rxHeader := "3220|RP|10:048122|05",
        srcId := "18:000730", dstId := "10:052644" }
    let ctx : Context :=
      { state := ⟨.wantRply, some c,
          some { frame := "eA", hdr := "3220|RQ|10:048122|05", code := "3220",
                 srcId := "18:000730", dstId := "10:052644" }, none⟩,
        cmd := some c,
        qos := some { timeout := 3, maxRetries := 1, waitForReply := true },
        cmdTxCount := some 1, cmdTxLimit := some 2, maxRetryLimit := 3, hgiId := "18:198151" }
    let p : Packet :=
      { frame := "rA", hdr := "3220|RP|10:048122|05", code := "3220",
        srcId := "10:048122", dstId := "01:145038" }
    p.dstId ≠ c.srcId ∧
      (pktRcvd ctx p).1.state.tag = .isInIdle ∧
      Effect.futResult p ∈ (pktRcvd ctx p).2 := by
  intro c ctx p
  have h := (wantRply_accept_iff ctx c p rfl rfl).mpr ⟨by decide, by decide⟩
  exact ⟨by decide, h.1, h.2⟩

/-! ## C5: `MessageIndex.add` supersession and uniqueness -/

theorem isPrefixOfSelf (l : List Char) : l.isPrefixOf l = true := by
  induction l with
  | nil => rfl
  | cons c cs ih => simp [List.isPrefixOf, ih]

theorem hasSubstrL_self (l : List Char) : hasSubstrL l l = true := by
  cases l with
  | nil => rfl
  | cons c cs => simp [hasSubstrL, isPrefixOfSelf]

theorem hasSubstrS_self (s : String) : hasSubstrS s s = true :=
  hasSubstrL_self s.data

theorem miContains_of_mem (db : List MIRow) (m : MIRow) (hm : m ∈ db) :
    miContains db (some m.code) (some m.verb) (some m.src) (some m.dst)
      (some m.ctx) (some m.plk) = true := by
  unfold miContains
  rw [List.any_eq_true]
  exact ⟨m, hm, by simp [optEq, hasSubstrS_self]⟩

theorem hdrUnique_miAdd (db : List MIRow) (m : MIRow) (h : hdrUnique db) :
    hdrUnique (miAdd db m).1 := by
  cases hf : db.find? (fun r => r.hdr == m.hdr) with
  | none =>
    have h2 : ∀ r ∈ db, r.hdr ≠ m.hdr := by
      intro r hr
      have := List.find?_eq_none.mp hf r hr
      simpa using this
    simp only [miAdd, hf, hdrUnique]
    exact List.pairwise_append.mpr ⟨h, List.pairwise_singleton _ _,
      fun a ha b hb => by
        rw [List.mem_singleton] at hb
        subst hb
        exact h2 a ha⟩
  | some old =>
    simp only [miAdd, hf, hdrUnique]
    refine List.pairwise_map.mpr (h.imp ?_)
    intro a b hab
    by_cases ha : (a.hdr == m.hdr) = true <;> by_cases hb2 : (b.hdr == m.hdr) = true
    · exact absurd ((eq_of_beq ha).trans (eq_of_beq hb2).symm) hab
    · simp only [if_pos ha, if_neg hb2]
      have hbm : b.hdr ≠ m.hdr := by simpa using hb2
      exact fun e => hbm e.symm
    · simp only [if_neg ha, if_pos hb2]
      simpa using ha
    · simp only [if_neg ha, if_neg hb2]
      exact hab

theorem hdrUnique_miAddAll (ms : List MIRow) : hdrUnique (miAddAll ms) := by
  suffices h : ∀ db : List MIRow, hdrUnique db →
      hdrUnique (ms.foldl (fun d m => (miAdd d m).1) db) from
    h [] List.Pairwise.nil
  induction ms with
  | nil => exact fun db hdb => hdb
  | cons m ms ih => exact fun db hdb => ih _ (hdrUnique_miAdd db m hdb)

/-- C5: `MessageIndex.add(m)` returns the previously stored message with
the same `hdr` if one existed and returns nothing otherwise; after any
sequence of `add` calls the index holds at most one row per `hdr`; and
immediately after `add(m)`, `contains` holds for `m`'s key fields. -/
theorem messageIndex_add_spec (db : List MIRow) (m : MIRow) (h : hdrUnique db) :
    (∀ old, (miAdd db m).2 = some old → old ∈ db ∧ old.hdr = m.hdr) ∧
    ((miAdd db m).2 = none → ∀ r ∈ db, r.hdr ≠ m.hdr) ∧
    hdrUnique (miAdd db m).1 ∧
    miContains (miAdd db m).1 (some m.code) (some m.verb) (some m.src) (some m.dst)
      (some m.ctx) (some m.plk) = true ∧
    (∀ ms : List MIRow, hdrUnique (miAddAll ms)) := by
  refine ⟨?_, ?_, hdrUnique_miAdd db m h, ?_, fun ms => hdrUnique_miAddAll ms⟩
  · intro old hold
    cases hf : db.find? (fun r => r.hdr == m.hdr) with
    | none =>
      rw [show (miAdd db m).2 = none by simp only [miAdd, hf]] at hold
      exact absurd hold (by simp)
    | some o =>
      rw [show (miAdd db m).2 = some o by simp only [miAdd, hf]] at hold
      obtain rfl : o = old := by injection hold
      exact ⟨List.mem_of_find?_eq_some hf, by simpa using List.find?_some hf⟩
  · intro hnone r hr
    cases hf : db.find? (fun r => r.hdr == m.hdr) with
    | none =>
      have := List.find?_eq_none.mp hf r hr
      simpa using this
    | some o =>
      rw [show (miAdd db m).2 = some o by simp only [miAdd, hf]] at hnone
      exact absurd hnone (by simp)
  · apply miContains_of_mem
    cases hf : db.find? (fun r => r.hdr == m.hdr) with
    | none =>
      simp only [miAdd, hf]
      exact List.mem_append.mpr (Or.inr (List.mem_singleton.mpr rfl))
    | some o =>
      simp only [miAdd, hf]
      have hp := List.find?_some hf
      exact List.mem_map.mpr ⟨o, List.mem_of_find?_eq_some hf, by simp [hp]⟩

/-- Witness for C5 at a concrete row added to the empty index. -/
theorem messageIndex_add_spec_witness :
    let m : MIRow :=
      { hdr := "1298| I|32:166025", code := "1298", verb := " I",
        src := "32:166025", dst := "32:166025", ctx := "False", dtm := 0,
        plk := "|co2_level|" }
    hdrUnique ([] : List MIRow) ∧
      miContains (miAdd [] m).1 (some m.code) (some m.verb) (some m.src) (some m.dst)
        (some m.ctx) (some m.plk) = true := by
  intro m
  exact ⟨List.Pairwise.nil, (messageIndex_add_spec [] m List.Pairwise.nil).2.2.2.1⟩

/-! ## C6: `qry_field` accepts only SELECT statements -/

/-- C6: for every SQL string whose first non-whitespace token is not
`SELECT`, `qry_field` raises `ValueError("Only SELECT queries are
allowed")` and leaves the index unchanged; for every statement whose
first token is `SELECT` it does not raise and the index is likewise
unchanged. -/
theorem qryField_select_only (db : List MIRow) (sql : String)
    (exec : String → List (List String)) :
    (firstToken sql ≠ "SELECT" →
      qryField db sql exec = (.error "Only SELECT queries are allowed", db)) ∧
    (firstToken sql = "SELECT" →
      qryField db sql exec = (.ok (exec sql), db)) := by
  constructor
  · intro h
    simp [qryField, h]
  · intro h
    simp [qryField, h]

/-- Witness for C6: a `DELETE` statement is rejected, a `SELECT` (with
leading whitespace) is accepted; the index is unchanged either way. -/
theorem qryField_select_only_witness :
    let ex : String → List (List String) := fun _ => []
    firstToken "DELETE FROM messages" ≠ "SELECT" ∧
      qryField [] "DELETE FROM messages" ex =
        (.error "Only SELECT queries are allowed", []) ∧
      qryField [] "  SELECT code, plk FROM messages" ex = (.ok [], []) := by
  intro ex
  exact ⟨by decide,
    (qryField_select_only [] "DELETE FROM messages" ex).1 (by decide),
    (qryField_select_only [] "  SELECT code, plk FROM messages" ex).2 (by decide)⟩

/-! ## C9: the discovery loop -/

/-- C9: on each iteration of the discovery loop, for each registered
task: if the index holds a message under `I_ + rx_header[2:]` whose
`dtm + interval` exceeds `next_due`, `last_msg` is set to it and no
command is sent; otherwise, if `next_due ≤ now`, the command is sent and
awaited under the cap `timeout * 5`, updating `last_msg` on a reply and
skipping the task on a timeout; every `last_msg` update sets
`last_ran := last_msg.dtm` and `next_due := last_ran + interval`; and the
inter-iteration sleep is `clamp(min(next_due) - now, 3, 10)` seconds, or
`10` when no tasks are registered. -/
theorem poll_disc_tasks_spec (lookup : String → Option DMessage)
    (replyWithin : ℚ → Option DMessage) (now : ℚ) (task : DiscTask)
    (msg mr : DMessage) (tasks : List DiscTask) (t : DiscTask) :
    (lookup (discLookupHdr task.command.rxHeader) = some msg →
      task.nextDue < msg.dtm + task.interval →
      pollDiscTaskStep lookup replyWithin now task =
        ({ task with
            lastMsg := some msg
            lastRan := some msg.dtm
            nextDue := msg.dtm + task.interval }, false)) ∧
    ((lookup (discLookupHdr task.command.rxHeader) = none ∨
        (lookup (discLookupHdr task.command.rxHeader) = some msg ∧
          msg.dtm + task.interval ≤ task.nextDue)) →
      task.nextDue ≤ now →
      (replyWithin (task.timeout * 5) = some mr →
        pollDiscTaskStep lookup replyWithin now task =
          ({ task with
              lastMsg := some mr
              lastRan := some mr.dtm
              nextDue := mr.dtm + task.interval }, true)) ∧
      (replyWithin (task.timeout * 5) = none →
        pollDiscTaskStep lookup replyWithin now task = (task, true))) ∧
    ((lookup (discLookupHdr task.command.rxHeader) = none ∨
        (lookup (discLookupHdr task.command.rxHeader) = some msg ∧
          msg.dtm + task.interval ≤ task.nextDue)) →
      ¬ task.nextDue ≤ now →
      pollDiscTaskStep lookup replyWithin now task = (task, false)) ∧
    pollSleepSecs [] now = MAX_CYCLE_SECS ∧
    pollSleepSecs (t :: tasks) now =
      min (max (minNextDue t tasks - now) MIN_CYCLE_SECS) MAX_CYCLE_SECS := by
  refine ⟨fun hlook hlt => ?_, fun hno hdue => ⟨fun hr => ?_, fun hr => ?_⟩,
    fun hno hdue => ?_, rfl, rfl⟩
  · simp [pollDiscTaskStep, hlook, pyMaxD, hlt]
  · rcases hno with hnone | ⟨hsome, hle⟩
    · simp [pollDiscTaskStep, hnone, pyMaxD, hdue, sendDiscTask, hr]
    · simp [pollDiscTaskStep, hsome, pyMaxD, not_lt.mpr hle, hdue, sendDiscTask, hr]
  · rcases hno with hnone | ⟨hsome, hle⟩
    · simp [pollDiscTaskStep, hnone, pyMaxD, hdue, sendDiscTask, hr]
    · simp [pollDiscTaskStep, hsome, pyMaxD, not_lt.mpr hle, hdue, sendDiscTask, hr]
  · rcases hno with hnone | ⟨hsome, hle⟩
    · simp [pollDiscTaskStep, hnone, pyMaxD, hdue]
    · simp [pollDiscTaskStep, hsome, pyMaxD, not_lt.mpr hle, hdue]

/-- Witness for C9: a recent-enough indexed message coalesces the task
(no send) and reschedules it from the message's timestamp. -/
theorem poll_disc_tasks_spec_witness :
    let c : Command :=
      { frame := "c9", txHeader := "31DA|RQ|32:166025", rxHeader := "31DA|RP|32:166025",
        srcId := "18:000730", dstId := "32:166025" }
    let task : DiscTask :=
      { command := c, interval := 300, lastMsg := none, lastRan := none,
        nextDue := 100, timeout := 3 }
    let msg : DMessage := { hdr := " IDA|RP|32:166025", dtm := 50 }
    let lookup : String → Option DMessage := fun _ => some msg
    let rw0 : ℚ → Option DMessage := fun _ => none
    pollDiscTaskStep lookup rw0 100 task =
      ({ task with
          lastMsg := some msg
          lastRan := some msg.dtm
          nextDue := msg.dtm + task.interval }, false) ∧
      msg.dtm + task.interval = 350 := by
  intro c task msg lookup rw0
  exact ⟨(poll_disc_tasks_spec lookup rw0 100 task msg msg [] task).1 rfl (by norm_num),
    by norm_num⟩

end Ramses
